import Mathlib

/-!
Shallow embedding of the Tier-1 hydraulic mixing heuristic engine
(src/src/engine.ts) of the Tank-Mixing repository.

Modelling conventions:
* JavaScript numbers are idealised as real numbers (ℝ).
* `Number.POSITIVE_INFINITY` for the Richardson number is modelled by
  `⊤ : EReal`; every JavaScript comparison `Ri > x` with a finite `x`
  agrees with the `EReal` order.
* Template strings that interpolate numeric values are modelled by an
  inductive `Msg` whose constructors carry the interpolated values
  (formatting such as `toFixed` is presentation only and is dropped).
* The `isNaN(Ri)` recovery branch (engine.ts lines 254-257) can never
  fire in this idealisation: real-number arithmetic produces no NaN
  (the divisor `Vjet^2` is nonzero whenever the division is reached),
  so the branch is omitted and the corresponding validity flag is
  never emitted.
-/

noncomputable section

namespace TankMixing

/-- engine.ts line 14. -/
inductive ConservatismLevel where
  | low | normal | high
deriving DecidableEq

/-- engine.ts line 15. -/
inductive Orientation where
  | radial | tangential | downward | upward | opposite | unknown
deriving DecidableEq

/-- engine.ts line 16 (`rectangular` is declared but the engine only models
cylindrical tanks). -/
inductive TankShape where
  | cylindrical | rectangular
deriving DecidableEq

/-- engine.ts line 17. -/
inductive RiLengthScale where
  | nozzle | depth_quarter | tank_half
deriving DecidableEq

/-- engine.ts lines 19-25. -/
structure Tank where
  shape : TankShape
  diameter_m : ℝ
  water_depth_m : ℝ
  operating_storage_kL : ℝ
  reserve_unusable_kL : ℝ

/-- engine.ts lines 27-33. -/
structure Inlet where
  count : ℝ
  elevation_from_floor_m : ℝ
  nozzle_diameter_mm : ℝ
  orientation : Orientation
  inclination_deg : ℝ

/-- engine.ts lines 35-38. -/
structure Outlet where
  elevation_from_floor_m : ℝ
  orientation : Orientation

/-- engine.ts lines 40-44. -/
structure Operation where
  inflow_Lps : ℝ
  fill_event_volume_kL : ℝ
  events_per_day : ℝ

/-- engine.ts lines 46-50. -/
structure Water where
  temperature_inflow_min_C : ℝ
  temperature_inflow_max_C : ℝ
  temperature_tank_initial_C : ℝ

/-- engine.ts lines 52-74. -/
structure Options where
  target_mixed_fraction : ℝ
  conservatism : ConservatismLevel
  ri_length_scale : RiLengthScale
  target_velocity_m_s : ℝ
  ri_threshold_warn : ℝ
  ri_threshold_fail : ℝ
  tor_threshold_warn : ℝ
  layout_score_warn : ℝ
  layout_score_fail : ℝ
  risk_vertical_proximity : ℝ
  risk_high_elevation : ℝ
  risk_orient_radial : ℝ
  risk_orient_upward : ℝ
  credit_orient_tangential : ℝ
  credit_orient_downward : ℝ
  credit_outlet_opposite : ℝ
  credit_multiple_inlets : ℝ

/-- engine.ts lines 76-85 (the string fields `id` and `name` play no role in
the computation and are kept as plain strings). -/
structure Scenario where
  id : String
  name : String
  tank : Tank
  inlet : Inlet
  outlet : Outlet
  operation : Operation
  water : Water
  options : Options

/-- engine.ts line 87. -/
inductive Status where
  | PASS | WARN | FAIL
deriving DecidableEq

/-- Severity rank: PASS < WARN < FAIL (spec section 4.3). -/
def Status.rank : Status → ℕ
  | .PASS => 0
  | .WARN => 1
  | .FAIL => 2

/-- engine.ts line 94: the `jetPenetrationReach` classification.  The source
value `'partial'` is rendered `partialPen` here. -/
inductive Reach where
  | upper_layer_only | partialPen | bottom
deriving DecidableEq

/-- engine.ts line 125: the dominant-risk label. -/
inductive DominantRisk where
  | buoyancy | short_circuit | insufficient_momentum | none
deriving DecidableEq

/-- engine.ts line 113: recommendation category. -/
inductive RecType where
  | design | operation
deriving DecidableEq

/-- engine.ts line 115: recommendation priority. -/
inductive Priority where
  | high | medium | low
deriving DecidableEq

/-- The message templates pushed by `analyzeScenario`, with the numeric
values they interpolate (engine.ts lines 201, 204, 285, 291, 300, 306,
312, 321, 355, 360, 373, 380). -/
inductive Msg where
  | errInElev
  | errOutElev
  | vertMomFail (v : ℝ)
  | vertMomWarn (v : ℝ) (vt : ℝ)
  | vertStratFail
  | vertRiFail (ri : EReal) (thr : ℝ)
  | vertRiWarn (thr : ℝ) (ri : EReal)
  | vertTor (tor : ℝ) (thr : ℝ)
  | horizMain (score : ℝ) (st : Status)
  | horizProx
  | recNozzle (vt : ℝ) (d_m : ℝ)
  | recElev (maxElev : ℝ)

/-- engine.ts lines 111-116. -/
structure Recommendation where
  id : String
  rtype : RecType
  priority : Priority
  message : Msg

/-- The validity-flag strings of `analyzeScenario` (engine.ts lines 172-177,
192, 197), as an inductive carrying the interpolated values. -/
inductive Flag where
  | tier1Heuristics
  | cylindricalModel
  | reserveMixing
  | simplifiedThermal
  | volumeExceeds (v_eff : ℝ) (v_geom : ℝ)
  | noStorage

/-- engine.ts lines 89-109. -/
structure Metrics where
  inletVelocity_m_s : ℝ
  froudeInlet : ℝ
  richardsonNumber : EReal
  turnoverRatio : ℝ
  jetPenetrationReach : Reach
  horizontalRiskScore : ℝ
  deltaT : ℝ
  tankVolume_geom_m3 : ℝ
  tankVolume_total_effective_m3 : ℝ
  deltaT_inlet_vs_tank : ℝ
  deltaT_inlet_range : ℝ
  ri_numerator : ℝ
  ri_denominator : ℝ
  ri_lengthScale_m : ℝ
  beta_per_C : ℝ

/-- engine.ts lines 118-126. -/
structure Result where
  overallStatus : Status
  verticalStatus : Status
  horizontalStatus : Status
  metrics : Metrics
  recommendations : List Recommendation
  validityFlags : List Flag
  dominantRisk : DominantRisk

/-- engine.ts line 130: `const G = 9.81`. -/
def G : ℝ := 9.81

/-- engine.ts lines 134-137. -/
def computeNozzleArea (d_mm : ℝ) : ℝ :=
  Real.pi * (d_mm / 1000 / 2) ^ 2

/-- engine.ts lines 139-141. -/
def computeTankVolumeCyl (D_m H_m : ℝ) : ℝ :=
  Real.pi * D_m ^ 2 / 4 * H_m

/-- engine.ts lines 143-149. -/
def computeInletVelocity (flow_Lps area_m2 count : ℝ) : ℝ :=
  if area_m2 ≤ 0 ∨ count ≤ 0 then 0
  else flow_Lps / 1000 / count / area_m2

/-- engine.ts lines 151-155: constant fresh-water expansion coefficient. -/
def estimateBetaPerC (_tempC : ℝ) : ℝ := 2.1e-4

/-- engine.ts lines 157-161. -/
def computeFroudeInlet (Vjet d_nozzle_m : ℝ) : ℝ :=
  if d_nozzle_m ≤ 0 then 0
  else Vjet / Real.sqrt (G * d_nozzle_m)

/-- engine.ts lines 163-166. -/
def computeTurnoverRatio (fillVol_m3 tankVol_m3 : ℝ) : ℝ :=
  if tankVol_m3 ≤ 0 then 0
  else fillVol_m3 / tankVol_m3

/-! ### Derived quantities of `analyzeScenario` (engine.ts lines 170-257)

Each `let` binding of the source function becomes a definition of the
scenario. -/

/-- engine.ts line 183: geometric volume. -/
def v_geomOf (s : Scenario) : ℝ :=
  computeTankVolumeCyl s.tank.diameter_m s.tank.water_depth_m

/-- engine.ts line 186. -/
def v_operOf (s : Scenario) : ℝ := max 0 s.tank.operating_storage_kL

/-- engine.ts line 187. -/
def v_reserveOf (s : Scenario) : ℝ := max 0 s.tank.reserve_unusable_kL

/-- engine.ts line 188: total effective volume. -/
def v_effOf (s : Scenario) : ℝ := v_operOf s + v_reserveOf s

/-- engine.ts line 195. -/
def volumeForTurnoverOf (s : Scenario) : ℝ :=
  if 0 < v_effOf s then v_effOf s else v_geomOf s

/-- engine.ts line 209. -/
def d_nozOf (s : Scenario) : ℝ := s.inlet.nozzle_diameter_mm / 1000

/-- engine.ts line 210. -/
def nozzleAreaOf (s : Scenario) : ℝ := computeNozzleArea s.inlet.nozzle_diameter_mm

/-- engine.ts line 211: the inlet jet velocity `Vjet`. -/
def VjetOf (s : Scenario) : ℝ :=
  computeInletVelocity s.operation.inflow_Lps (nozzleAreaOf s) s.inlet.count

/-- engine.ts line 213: turnover ratio `TOR`. -/
def TOROf (s : Scenario) : ℝ :=
  computeTurnoverRatio s.operation.fill_event_volume_kL (volumeForTurnoverOf s)

/-- engine.ts line 214. -/
def FrOf (s : Scenario) : ℝ := computeFroudeInlet (VjetOf s) (d_nozOf s)

/-- engine.ts line 216. -/
def dt_rangeOf (s : Scenario) : ℝ :=
  |s.water.temperature_inflow_max_C - s.water.temperature_inflow_min_C|

/-- engine.ts lines 217-219: worst-case temperature difference between the
inflow range and the tank. -/
def dt_vs_tankOf (s : Scenario) : ℝ :=
  max |s.water.temperature_inflow_max_C - s.water.temperature_tank_initial_C|
      |s.water.temperature_inflow_min_C - s.water.temperature_tank_initial_C|

/-- engine.ts line 221. -/
def betaOf (s : Scenario) : ℝ := estimateBetaPerC s.water.temperature_tank_initial_C

/-- engine.ts lines 226-234: the Richardson length scale, selected by policy
and floored at 0.05 m. -/
def L_buoyancyOf (s : Scenario) : ℝ :=
  let L : ℝ :=
    match s.options.ri_length_scale with
    | .nozzle => d_nozOf s
    | .depth_quarter => max 0.05 (min 2.0 (0.25 * s.tank.water_depth_m))
    | .tank_half => min s.tank.diameter_m s.tank.water_depth_m / 2
  max L 0.05

/-- The three outputs of the Richardson block: `Ri`, `ri_num`, `ri_den`. -/
structure RiParts where
  Ri : EReal
  num : ℝ
  den : ℝ

/-- engine.ts lines 236-251: the guarded Richardson computation.  All three
variables are initialised to 0; the first branch overwrites only `Ri`
(with `+infinity`, modelled by `⊤`). -/
def computeRiBlock (Vjet dt L beta : ℝ) : RiParts :=
  if Vjet ≤ 0.0001 then ⟨⊤, 0, 0⟩
  else if dt < 0.01 then ⟨((0 : ℝ) : EReal), 0, Vjet ^ 2⟩
  else ⟨((G * beta * dt * L / Vjet ^ 2 : ℝ) : EReal), G * beta * dt * L, Vjet ^ 2⟩

/-- The Richardson block applied to a scenario's derived quantities. -/
def riPartsOf (s : Scenario) : RiParts :=
  computeRiBlock (VjetOf s) (dt_vs_tankOf s) (L_buoyancyOf s) (betaOf s)

/-- engine.ts lines 236-251: the Richardson number of a scenario. -/
def RiOf (s : Scenario) : EReal := (riPartsOf s).Ri

/-- engine.ts line 265: `options.target_velocity_m_s ?? 0.8`.  The field is a
non-optional number, so the `?? 0.8` fallback can never fire for a well-typed
`Options` record and is dropped here. -/
def v_targetOf (s : Scenario) : ℝ := s.options.target_velocity_m_s

/-- engine.ts line 269: the stable-stratification predicate
`(dt_vs_tank >= 2.0) && (Ri > ri_threshold_warn)`. -/
def stableStratLikelyOf (s : Scenario) : Prop :=
  2.0 ≤ dt_vs_tankOf s ∧ ((s.options.ri_threshold_warn : ℝ) : EReal) < RiOf s

instance (s : Scenario) : Decidable (stableStratLikelyOf s) :=
  inferInstanceAs (Decidable (_ ∧ _))

/-- engine.ts lines 268-277: jet penetration classification, `'bottom'`
unless stable stratification is likely. -/
def reachOf (s : Scenario) : Reach :=
  if stableStratLikelyOf s then
    if 0.5 * s.tank.water_depth_m < s.inlet.elevation_from_floor_m then .upper_layer_only
    else if 0.25 * s.tank.water_depth_m < s.inlet.elevation_from_floor_m then .partialPen
    else .bottom
  else .bottom

/-! ### The vertical rule chain (engine.ts lines 261-323)

The source mutates a single `verticalStatus` variable through four checks;
each check is rendered as a stage function, and `verticalStatusSrc` below
transcribes the source's control flow directly.  `verticalSrc_eq_staged`
proves the two agree. -/

/-- engine.ts lines 281-293: momentum check, starting from `'PASS'`. -/
def momentumStage (Vjet v_target : ℝ) : Status :=
  if Vjet < 0.5 * v_target then .FAIL
  else if Vjet < v_target then .WARN
  else .PASS

/-- engine.ts lines 295-301: penetration escalation (inside the
`verticalStatus !== 'FAIL'` guard, `'upper_layer_only'` forces FAIL). -/
def penetrationStage (st : Status) (reach : Reach) : Status :=
  if st ≠ .FAIL ∧ reach = .upper_layer_only then .FAIL else st

/-- engine.ts lines 302-314: Richardson threshold check (skipped once FAIL;
note line 309 assigns `'WARN'` in both ternary arms). -/
def richardsonStage (st : Status) (Ri : EReal) (warnT failT : ℝ) : Status :=
  if st ≠ .FAIL then
    if (failT : EReal) < Ri then .FAIL
    else if (warnT : EReal) < Ri then .WARN
    else st
  else st

/-- engine.ts lines 317-323: turnover check (escalates only PASS to WARN). -/
def turnoverStage (st : Status) (TOR thr : ℝ) : Status :=
  if TOR < thr ∧ st ≠ .FAIL then (if st = .PASS then .WARN else st) else st

/-- The status after the momentum check. -/
def verticalAfterMomentumOf (s : Scenario) : Status :=
  momentumStage (VjetOf s) (v_targetOf s)

/-- The status after the penetration check. -/
def verticalAfterPenetrationOf (s : Scenario) : Status :=
  penetrationStage (verticalAfterMomentumOf s) (reachOf s)

/-- The status after the Richardson threshold check. -/
def verticalAfterRiOf (s : Scenario) : Status :=
  richardsonStage (verticalAfterPenetrationOf s) (RiOf s)
    s.options.ri_threshold_warn s.options.ri_threshold_fail

/-- The final vertical status, after the turnover check. -/
def verticalStatusOf (s : Scenario) : Status :=
  turnoverStage (verticalAfterRiOf s) (TOROf s) s.options.tor_threshold_warn

/-- engine.ts lines 261-323 transcribed directly: the merged
`if (verticalStatus !== 'FAIL') { if .. else if .. else if .. }` block
followed by the turnover check. -/
def verticalStatusSrc (s : Scenario) : Status :=
  let v1 := momentumStage (VjetOf s) (v_targetOf s)
  let v2 : Status :=
    if v1 ≠ .FAIL then
      if reachOf s = .upper_layer_only then .FAIL
      else if ((s.options.ri_threshold_fail : ℝ) : EReal) < RiOf s then .FAIL
      else if ((s.options.ri_threshold_warn : ℝ) : EReal) < RiOf s then .WARN
      else v1
    else v1
  if TOROf s < s.options.tor_threshold_warn ∧ v2 ≠ .FAIL then
    (if v2 = .PASS then .WARN else v2)
  else v2

set_option linter.unreachableTactic false in
set_option linter.unusedTactic false in
theorem verticalSrc_eq_staged (s : Scenario) : verticalStatusSrc s = verticalStatusOf s := by
  unfold verticalStatusSrc verticalStatusOf verticalAfterRiOf verticalAfterPenetrationOf
    verticalAfterMomentumOf richardsonStage penetrationStage turnoverStage
  rcases h : momentumStage (VjetOf s) (v_targetOf s) <;>
    rcases hr : reachOf s <;> simp <;>
    try (split_ifs <;> simp_all)

/-! ### Horizontal / layout status (engine.ts lines 325-363) -/

/-- engine.ts line 328. -/
def distInOutOf (s : Scenario) : ℝ :=
  |s.inlet.elevation_from_floor_m - s.outlet.elevation_from_floor_m|

/-- engine.ts lines 327-344: the raw additive layout score, before clamping.
Each `if (..) hScore += w` / `hScore -= c` statement becomes one summand. -/
def hScoreRawOf (s : Scenario) : ℝ :=
  (if distInOutOf s < 0.15 * s.tank.water_depth_m then s.options.risk_vertical_proximity else 0)
  + (if 0.6 * s.tank.water_depth_m < s.inlet.elevation_from_floor_m ∧
        0.6 * s.tank.water_depth_m < s.outlet.elevation_from_floor_m then
      s.options.risk_high_elevation else 0)
  + (if s.inlet.orientation = .radial then s.options.risk_orient_radial else 0)
  - (if s.inlet.orientation = .tangential then s.options.credit_orient_tangential else 0)
  - (if s.inlet.orientation = .downward then s.options.credit_orient_downward else 0)
  + (if s.inlet.orientation = .upward then s.options.risk_orient_upward else 0)
  - (if s.outlet.orientation = .opposite then s.options.credit_outlet_opposite else 0)
  - (if 2 ≤ s.inlet.count then s.options.credit_multiple_inlets else 0)

/-- engine.ts line 346: `hScore = Math.max(0, Math.min(100, hScore))`. -/
def hScoreOf (s : Scenario) : ℝ := max 0 (min 100 (hScoreRawOf s))

/-- engine.ts lines 348-350. -/
def horizontalStatusOf (s : Scenario) : Status :=
  if s.options.layout_score_fail ≤ hScoreOf s then .FAIL
  else if s.options.layout_score_warn ≤ hScoreOf s then .WARN
  else .PASS

/-! ### Aggregation (engine.ts lines 384-399) -/

/-- engine.ts lines 386-388. -/
def overallStatusOf (s : Scenario) : Status :=
  if verticalStatusOf s = .FAIL ∨ horizontalStatusOf s = .FAIL then .FAIL
  else if verticalStatusOf s = .WARN ∨ horizontalStatusOf s = .WARN then .WARN
  else .PASS

/-- engine.ts lines 390-399. -/
def dominantRiskOf (s : Scenario) : DominantRisk :=
  if overallStatusOf s ≠ .PASS then
    if verticalStatusOf s = .FAIL ∨ verticalStatusOf s = .WARN then
      if VjetOf s < 0.5 * v_targetOf s then .insufficient_momentum
      else if ((s.options.ri_threshold_warn : ℝ) : EReal) < RiOf s then .buoyancy
      else .insufficient_momentum
    else .short_circuit
  else .none

/-! ### Recommendations and validity flags -/

/-- engine.ts line 370: the nozzle diameter achieving exactly the target
velocity, `sqrt((4 * q_per_inlet) / (PI * v_target))` with
`q_per_inlet = (inflow_Lps / 1000) / max(1, count)`. -/
def recNozzleDiamOf (s : Scenario) : ℝ :=
  Real.sqrt (4 * (s.operation.inflow_Lps / 1000 / max 1 s.inlet.count)
    / (Real.pi * v_targetOf s))

/-- The recommendation list of `analyzeScenario`, in push order.  Each
conditional `recs.push(..)` of the source (engine.ts lines 200-205, 281-323,
352-363, 367-382) becomes one conditional segment; the status conditions
guarding the vertical pushes are expressed through the stage values in force
at the corresponding program point. -/
def recsOf (s : Scenario) : List Recommendation :=
  (if s.tank.water_depth_m < s.inlet.elevation_from_floor_m then
    [⟨"err-in-elev", .design, .high, .errInElev⟩] else [])
  ++ (if s.tank.water_depth_m < s.outlet.elevation_from_floor_m then
    [⟨"err-out-elev", .design, .high, .errOutElev⟩] else [])
  ++ (if VjetOf s < 0.5 * v_targetOf s then
        [⟨"vert-mom-fail", .design, .high, .vertMomFail (VjetOf s)⟩]
      else if VjetOf s < v_targetOf s then
        [⟨"vert-mom-warn", .design, .medium, .vertMomWarn (VjetOf s) (v_targetOf s)⟩]
      else [])
  ++ (if verticalAfterMomentumOf s ≠ .FAIL then
        if reachOf s = .upper_layer_only then
          [⟨"vert-strat-fail", .design, .high, .vertStratFail⟩]
        else if ((s.options.ri_threshold_fail : ℝ) : EReal) < RiOf s then
          [⟨"vert-ri-fail", .operation, .high, .vertRiFail (RiOf s) s.options.ri_threshold_fail⟩]
        else if ((s.options.ri_threshold_warn : ℝ) : EReal) < RiOf s then
          [⟨"vert-ri-warn", .operation, .medium, .vertRiWarn s.options.ri_threshold_warn (RiOf s)⟩]
        else []
      else [])
  ++ (if TOROf s < s.options.tor_threshold_warn ∧ verticalAfterRiOf s ≠ .FAIL then
        [⟨"vert-tor", .operation, .low, .vertTor (TOROf s) s.options.tor_threshold_warn⟩]
      else [])
  ++ (if horizontalStatusOf s ≠ .PASS then
        ⟨"horiz-main", .design, .medium, .horizMain (hScoreOf s) (horizontalStatusOf s)⟩ ::
          (if distInOutOf s < 0.15 * s.tank.water_depth_m then
            [⟨"horiz-prox", .design, .high, .horizProx⟩] else [])
      else [])
  ++ (if VjetOf s < v_targetOf s then
        [⟨"rec-nozzle", .design, .high, .recNozzle (v_targetOf s) (recNozzleDiamOf s)⟩]
      else [])
  ++ (if 0.25 * s.tank.water_depth_m < s.inlet.elevation_from_floor_m ∧
          verticalStatusOf s ≠ .PASS then
        [⟨"rec-elev", .design, .high, .recElev (0.25 * s.tank.water_depth_m)⟩]
      else [])

/-- engine.ts lines 172-177, 191-198: the validity flags, in push order.
The NaN flag of line 256 is unreachable in the real-number idealisation
(see the file header). -/
def validityFlagsOf (s : Scenario) : List Flag :=
  [.tier1Heuristics, .cylindricalModel, .reserveMixing, .simplifiedThermal]
  ++ (if v_geomOf s * 1.01 < v_effOf s then [.volumeExceeds (v_effOf s) (v_geomOf s)] else [])
  ++ (if v_effOf s ≤ 0 then [.noStorage] else [])

/-- engine.ts lines 170-428: the full evaluation, assembling the `Result`
record from the definitions above (using the staged vertical status, equal
to the direct transcription by `verticalSrc_eq_staged`). -/
def analyzeScenario (s : Scenario) : Result where
  overallStatus := overallStatusOf s
  verticalStatus := verticalStatusOf s
  horizontalStatus := horizontalStatusOf s
  metrics :=
    { inletVelocity_m_s := VjetOf s
      froudeInlet := FrOf s
      richardsonNumber := RiOf s
      turnoverRatio := TOROf s
      jetPenetrationReach := reachOf s
      horizontalRiskScore := hScoreOf s
      deltaT := dt_vs_tankOf s
      tankVolume_geom_m3 := v_geomOf s
      tankVolume_total_effective_m3 := v_effOf s
      deltaT_inlet_vs_tank := dt_vs_tankOf s
      deltaT_inlet_range := dt_rangeOf s
      ri_numerator := (riPartsOf s).num
      ri_denominator := (riPartsOf s).den
      ri_lengthScale_m := L_buoyancyOf s
      beta_per_C := betaOf s }
  recommendations := recsOf s
  validityFlags := validityFlagsOf s
  dominantRisk := dominantRiskOf s

/-- engine.ts lines 485-538: the default scenario factory. -/
def createDefaultScenario : Scenario where
  id := "default-1"
  name := "Baseline Scenario"
  tank :=
    { shape := .cylindrical
      diameter_m := 10
      water_depth_m := 5
      operating_storage_kL := 350
      reserve_unusable_kL := 40 }
  inlet :=
    { count := 1
      elevation_from_floor_m := 0.5
      nozzle_diameter_mm := 150
      orientation := .radial
      inclination_deg := 0 }
  outlet :=
    { elevation_from_floor_m := 0.2
      orientation := .opposite }
  operation :=
    { inflow_Lps := 20
      fill_event_volume_kL := 100
      events_per_day := 1 }
  water :=
    { temperature_inflow_min_C := 15
      temperature_inflow_max_C := 18
      temperature_tank_initial_C := 22 }
  options :=
    { target_mixed_fraction := 0.95
      conservatism := .normal
      ri_length_scale := .depth_quarter
      target_velocity_m_s := 0.8
      ri_threshold_warn := 1.0
      ri_threshold_fail := 5.0
      tor_threshold_warn := 0.3
      layout_score_warn := 30
      layout_score_fail := 65
      risk_vertical_proximity := 25
      risk_high_elevation := 35
      risk_orient_radial := 15
      risk_orient_upward := 5
      credit_orient_tangential := 10
      credit_orient_downward := 5
      credit_outlet_opposite := 5
      credit_multiple_inlets := 10 }

/-! ### Helper lemmas: each vertical stage is severity-non-decreasing -/

theorem rank_le_two (st : Status) : st.rank ≤ 2 := by
  rcases st <;> simp [Status.rank]

theorem penetrationStage_rank_le (st : Status) (reach : Reach) :
    st.rank ≤ (penetrationStage st reach).rank := by
  unfold penetrationStage
  split
  · exact rank_le_two st
  · exact le_rfl

theorem richardsonStage_rank_le (st : Status) (Ri : EReal) (warnT failT : ℝ) :
    st.rank ≤ (richardsonStage st Ri warnT failT).rank := by
  unfold richardsonStage
  split
  · rename_i hne
    split
    · exact rank_le_two st
    · split
      · rcases st <;> simp_all [Status.rank]
      · exact le_rfl
  · exact le_rfl

theorem turnoverStage_rank_le (st : Status) (TOR thr : ℝ) :
    st.rank ≤ (turnoverStage st TOR thr).rank := by
  unfold turnoverStage
  split
  · split
    · rename_i hp
      subst hp
      simp [Status.rank]
    · exact le_rfl
  · exact le_rfl

/-- Claim C2: for every scenario, the overall status is FAIL iff the vertical
or the horizontal status is FAIL, PASS iff both are PASS, and WARN exactly
otherwise (the worse of the two axis statuses under PASS < WARN < FAIL). -/
theorem overall_is_worse_axis (s : Scenario) :
    ((analyzeScenario s).overallStatus = .FAIL ↔
      ((analyzeScenario s).verticalStatus = .FAIL ∨
        (analyzeScenario s).horizontalStatus = .FAIL))
    ∧ ((analyzeScenario s).overallStatus = .PASS ↔
      ((analyzeScenario s).verticalStatus = .PASS ∧
        (analyzeScenario s).horizontalStatus = .PASS))
    ∧ ((analyzeScenario s).overallStatus = .WARN ↔
      (¬((analyzeScenario s).verticalStatus = .FAIL ∨
          (analyzeScenario s).horizontalStatus = .FAIL) ∧
        ¬((analyzeScenario s).verticalStatus = .PASS ∧
          (analyzeScenario s).horizontalStatus = .PASS))) := by
  simp only [analyzeScenario]
  unfold overallStatusOf
  rcases hv : verticalStatusOf s <;> rcases hh : horizontalStatusOf s <;> simp

/-- Claim C3: the vertical status is computed by the four-step rule chain
(momentum, penetration, Richardson threshold, turnover) and the severity is
non-decreasing through it under PASS < WARN < FAIL; the staged chain equals
the source's merged control flow, and the result returned by
`analyzeScenario` is its final value. -/
theorem vertical_chain_monotone (s : Scenario) :
    Status.PASS.rank ≤ (verticalAfterMomentumOf s).rank
    ∧ (verticalAfterMomentumOf s).rank ≤ (verticalAfterPenetrationOf s).rank
    ∧ (verticalAfterPenetrationOf s).rank ≤ (verticalAfterRiOf s).rank
    ∧ (verticalAfterRiOf s).rank ≤ (verticalStatusOf s).rank
    ∧ verticalStatusSrc s = verticalStatusOf s
    ∧ (analyzeScenario s).verticalStatus = verticalStatusOf s :=
  ⟨Nat.zero_le _,
   penetrationStage_rank_le _ _,
   richardsonStage_rank_le _ _ _ _,
   turnoverStage_rank_le _ _ _,
   verticalSrc_eq_staged s,
   rfl⟩

/-- Claim C4: for every scenario, including arbitrary (extreme or negative)
layout weights and credits in the options, the horizontal risk score in the
returned metrics lies within [0, 100]. -/
theorem horizontal_score_in_range (s : Scenario) :
    0 ≤ (analyzeScenario s).metrics.horizontalRiskScore ∧
      (analyzeScenario s).metrics.horizontalRiskScore ≤ 100 := by
  show 0 ≤ hScoreOf s ∧ hScoreOf s ≤ 100
  unfold hScoreOf
  exact ⟨le_max_left 0 _, max_le (by norm_num) (min_le_left _ _)⟩

/-- The dominant-risk label as claim C8 words it (spec section 4.5): `none`
when overall PASS; else, when the vertical status is WARN or FAIL,
`insufficient_momentum` below 50% of the target velocity, else `buoyancy`
when Ri exceeds the warn threshold, else `insufficient_momentum`; else
(vertical PASS, horizontal degraded) `short_circuit`. -/
def dominantRiskSpec (overall vertical : Status) (Vjet v_target : ℝ)
    (Ri : EReal) (warnT : ℝ) : DominantRisk :=
  if overall = .PASS then .none
  else if vertical = .WARN ∨ vertical = .FAIL then
    if Vjet < 0.5 * v_target then .insufficient_momentum
    else if (warnT : EReal) < Ri then .buoyancy
    else .insufficient_momentum
  else .short_circuit

/-- Claim C8: the dominant-risk label returned by the evaluation agrees with
the specification's classifier `dominantRiskSpec` on every scenario. -/
theorem dominant_risk_matches_spec (s : Scenario) :
    (analyzeScenario s).dominantRisk =
      dominantRiskSpec (analyzeScenario s).overallStatus
        (analyzeScenario s).verticalStatus (VjetOf s) (v_targetOf s)
        (RiOf s) s.options.ri_threshold_warn := by
  simp only [analyzeScenario]
  unfold dominantRiskOf dominantRiskSpec
  rcases ho : overallStatusOf s <;> rcases hv : verticalStatusOf s <;> simp

/-- Claim C5 as frozen quantifies over every flow rate and inlet count; at
flow 0 (a representable input, for which `computeInletVelocity` returns 0 on
both sides) the inequality is not strict, refuting the claim as stated. -/
theorem velocity_mono_counterexample :
    (0 : ℝ) < 1 ∧ (1 : ℝ) < 2 ∧
      ¬ computeInletVelocity 0 (computeNozzleArea 2) 1 <
          computeInletVelocity 0 (computeNozzleArea 1) 1 := by
  have h : ∀ a : ℝ, computeInletVelocity 0 a 1 = 0 := by
    intro a
    unfold computeInletVelocity
    split_ifs <;> norm_num
  refine ⟨by norm_num, by norm_num, ?_⟩
  rw [h, h]
  exact lt_irrefl 0

/-- Claim C5 (amended with a positive flow rate and a positive inlet count):
for fixed flow and count, the inlet velocity is strictly decreasing in the
nozzle diameter. -/
theorem velocity_strict_antitone_diameter (flow count d1 d2 : ℝ)
    (hflow : 0 < flow) (hcount : 0 < count) (hd1 : 0 < d1) (hlt : d1 < d2) :
    computeInletVelocity flow (computeNozzleArea d2) count <
      computeInletVelocity flow (computeNozzleArea d1) count := by
  have ha1 : 0 < computeNozzleArea d1 := by
    unfold computeNozzleArea
    positivity
  have ha2 : computeNozzleArea d1 < computeNozzleArea d2 := by
    unfold computeNozzleArea
    have hq : d1 / 1000 / 2 < d2 / 1000 / 2 := by linarith
    have hp : (0 : ℝ) ≤ d1 / 1000 / 2 := by positivity
    exact mul_lt_mul_of_pos_left (pow_lt_pow_left₀ hq hp (by norm_num)) Real.pi_pos
  unfold computeInletVelocity
  rw [if_neg (by push_neg; exact ⟨lt_trans ha1 ha2, hcount⟩),
    if_neg (by push_neg; exact ⟨ha1, hcount⟩)]
  have hnum : 0 < flow / 1000 / count := by positivity
  exact div_lt_div_of_pos_left hnum ha1 ha2

theorem velocity_strict_antitone_diameter_witness :
    (0 : ℝ) < 20 ∧ (0 : ℝ) < 1 ∧ (0 : ℝ) < 150 ∧ (150 : ℝ) < 300 ∧
      computeInletVelocity 20 (computeNozzleArea 300) 1 <
        computeInletVelocity 20 (computeNozzleArea 150) 1 :=
  ⟨by norm_num, by norm_num, by norm_num, by norm_num,
    velocity_strict_antitone_diameter 20 1 150 300 (by norm_num) (by norm_num)
      (by norm_num) (by norm_num)⟩

/-- Claim C6 as frozen quantifies over every fixed inlet velocity; at
velocity 0 (≤ the 1×10⁻⁴ m/s guard) the Richardson number is +infinity for
both ΔT values, so it does not strictly increase, refuting the claim as
stated. -/
theorem richardson_mono_counterexample :
    (0.01 : ℝ) ≤ 1 ∧ (1 : ℝ) < 2 ∧
      ¬ (computeRiBlock 0 1 1 (estimateBetaPerC 22)).Ri <
          (computeRiBlock 0 2 1 (estimateBetaPerC 22)).Ri := by
  refine ⟨by norm_num, by norm_num, ?_⟩
  unfold computeRiBlock
  rw [if_pos (by norm_num), if_pos (by norm_num)]
  exact lt_irrefl ⊤

/-- Claim C6 (amended with velocity above the 1×10⁻⁴ m/s guard and a
positive length scale — the engine's floor guarantees L ≥ 0.05): for fixed
velocity and length scale, the Richardson number is strictly increasing in
the worst-case temperature difference from 0.01 °C up. -/
theorem richardson_strict_mono_deltaT (t V L dt1 dt2 : ℝ)
    (hV : 0.0001 < V) (hL : 0 < L) (h1 : 0.01 ≤ dt1) (hlt : dt1 < dt2) :
    (computeRiBlock V dt1 L (estimateBetaPerC t)).Ri <
      (computeRiBlock V dt2 L (estimateBetaPerC t)).Ri := by
  unfold computeRiBlock estimateBetaPerC G
  rw [if_neg (not_le.mpr hV), if_neg (not_lt.mpr h1),
    if_neg (not_le.mpr hV), if_neg (not_lt.mpr (le_trans h1 hlt.le))]
  show ((_ : ℝ) : EReal) < ((_ : ℝ) : EReal)
  rw [EReal.coe_lt_coe_iff]
  have hV2 : (0 : ℝ) < V ^ 2 := by positivity
  apply div_lt_div_of_pos_right ?_ hV2
  have hb : (0 : ℝ) < 9.81 * 2.1e-4 := by norm_num
  nlinarith

theorem richardson_strict_mono_deltaT_witness :
    (0.0001 : ℝ) < 1 ∧ (0 : ℝ) < 1 ∧ (0.01 : ℝ) ≤ 0.01 ∧ (0.01 : ℝ) < 5 ∧
      (computeRiBlock 1 0.01 1 (estimateBetaPerC 20)).Ri <
        (computeRiBlock 1 5 1 (estimateBetaPerC 20)).Ri :=
  ⟨by norm_num, by norm_num, le_refl _, by norm_num,
    richardson_strict_mono_deltaT 20 1 1 0.01 5 (by norm_num) (by norm_num)
      (le_refl _) (by norm_num)⟩

/-! ### Concrete scenarios for counterexamples and witnesses -/

/-- The default scenario with an inflow range of 22 to 22.005 °C against a
22 °C tank: worst-case ΔT = 0.005 °C, inside the isothermal guard. -/
def c1Scenario : Scenario :=
  { createDefaultScenario with
      water :=
        { temperature_inflow_min_C := 22
          temperature_inflow_max_C := 22.005
          temperature_tank_initial_C := 22 } }

theorem dt_c1 : dt_vs_tankOf c1Scenario = 0.005 := by
  unfold dt_vs_tankOf c1Scenario createDefaultScenario
  simp only
  rw [show (22.005 - 22 : ℝ) = 0.005 by norm_num,
    show (22 - 22 : ℝ) = 0 by norm_num, abs_zero,
    abs_of_pos (by norm_num : (0 : ℝ) < 0.005)]
  exact max_eq_left (by norm_num)

theorem Vjet_c1_gt : 0.0001 < VjetOf c1Scenario := by
  unfold VjetOf computeInletVelocity nozzleAreaOf computeNozzleArea c1Scenario
    createDefaultScenario
  simp only
  have hA : (0 : ℝ) < Real.pi * (150 / 1000 / 2 : ℝ) ^ 2 := by positivity
  rw [if_neg (by push_neg; exact ⟨hA, by norm_num⟩)]
  rw [lt_div_iff₀ hA]
  nlinarith [Real.pi_lt_d2]

theorem L_c1 : L_buoyancyOf c1Scenario = 1.25 := by
  unfold L_buoyancyOf c1Scenario createDefaultScenario
  simp only
  rw [show (0.25 * 5 : ℝ) = 1.25 by norm_num, min_eq_right (by norm_num : (1.25 : ℝ) ≤ 2.0),
    max_eq_right (by norm_num : (0.05 : ℝ) ≤ 1.25), max_eq_left (by norm_num : (0.05 : ℝ) ≤ 1.25)]

/-- Claim C1 as frozen says the isothermal branch reports the numerator
g·β·ΔT·L in the metrics; at ΔT = 0.005 °C the code reports `ri_num = 0`
while g·β·ΔT·L ≠ 0, refuting the claim as stated. -/
theorem richardson_case2_numerator_counterexample :
    0.0001 < VjetOf c1Scenario ∧ dt_vs_tankOf c1Scenario < 0.01 ∧
      (analyzeScenario c1Scenario).metrics.ri_numerator ≠
        G * betaOf c1Scenario * dt_vs_tankOf c1Scenario * L_buoyancyOf c1Scenario := by
  have hV := Vjet_c1_gt
  have hdt : dt_vs_tankOf c1Scenario < 0.01 := by rw [dt_c1]; norm_num
  refine ⟨hV, hdt, ?_⟩
  have hnum : (analyzeScenario c1Scenario).metrics.ri_numerator = 0 := by
    show (riPartsOf c1Scenario).num = 0
    unfold riPartsOf computeRiBlock
    rw [if_neg (not_le.mpr hV), if_pos hdt]
  rw [hnum, dt_c1, L_c1]
  unfold G betaOf estimateBetaPerC
  norm_num

/-- Claim C1 (amended: in the isothermal branch the reported numerator is 0,
not g·β·ΔT·L; the denominator is the velocity squared): the Richardson
number and its debug metrics follow the three-case priority — velocity at or
below 1×10⁻⁴ m/s gives Ri = +infinity; else worst-case ΔT below 0.01 °C
gives Ri = 0 with numerator 0 and denominator V²; else
Ri = g·β·ΔT·L / V² with the worst-case ΔT. -/
theorem richardson_three_case_priority (s : Scenario) :
    (analyzeScenario s).metrics.richardsonNumber =
      (if VjetOf s ≤ 0.0001 then (⊤ : EReal)
       else if dt_vs_tankOf s < 0.01 then ((0 : ℝ) : EReal)
       else ((G * betaOf s * dt_vs_tankOf s * L_buoyancyOf s / VjetOf s ^ 2 : ℝ) : EReal))
    ∧ (analyzeScenario s).metrics.ri_numerator =
      (if VjetOf s ≤ 0.0001 then 0
       else if dt_vs_tankOf s < 0.01 then 0
       else G * betaOf s * dt_vs_tankOf s * L_buoyancyOf s)
    ∧ (analyzeScenario s).metrics.ri_denominator =
      (if VjetOf s ≤ 0.0001 then 0 else VjetOf s ^ 2)
    ∧ dt_vs_tankOf s =
      max |s.water.temperature_inflow_max_C - s.water.temperature_tank_initial_C|
          |s.water.temperature_inflow_min_C - s.water.temperature_tank_initial_C| := by
  simp only [analyzeScenario]
  refine ⟨?_, ?_, ?_, rfl⟩ <;>
    · simp only [RiOf, riPartsOf, computeRiBlock]
      split_ifs <;> rfl

/-- The default scenario with 393 kL of operating storage in a tank of
geometric capacity 125·π ≈ 392.7 kL: the specified volumes exceed the
geometric capacity, but by less than the source's 1% tolerance. -/
def c7Scenario : Scenario :=
  { createDefaultScenario with
      tank :=
        { shape := .cylindrical
          diameter_m := 10
          water_depth_m := 5
          operating_storage_kL := 393
          reserve_unusable_kL := 0 } }

theorem v_geom_c7 : v_geomOf c7Scenario = 125 * Real.pi := by
  unfold v_geomOf computeTankVolumeCyl c7Scenario
  simp only
  ring

theorem v_eff_c7 : v_effOf c7Scenario = 393 := by
  unfold v_effOf v_operOf v_reserveOf c7Scenario
  simp only
  rw [max_eq_right (by norm_num : (0 : ℝ) ≤ 393), max_self]
  norm_num

/-- Whether a validity flag is the capacity-exceeded advisory. -/
def Flag.isVolumeExceeds : Flag → Bool
  | .volumeExceeds _ _ => true
  | _ => false

/-- Claim C7 as frozen says every scenario whose operating + reserve volume
exceeds the geometric volume gets the advisory flag; with 393 kL specified
against 125·π ≈ 392.7 kL capacity the volumes exceed capacity but stay
within the source's 1% tolerance, and no such flag is emitted. -/
theorem volume_flag_counterexample :
    v_geomOf c7Scenario < v_effOf c7Scenario ∧
      ∀ f ∈ (analyzeScenario c7Scenario).validityFlags, f.isVolumeExceeds = false := by
  constructor
  · rw [v_geom_c7, v_eff_c7]
    nlinarith [Real.pi_lt_d6]
  · have hflags : (analyzeScenario c7Scenario).validityFlags =
        [.tier1Heuristics, .cylindricalModel, .reserveMixing, .simplifiedThermal] := by
      show validityFlagsOf c7Scenario = _
      unfold validityFlagsOf
      rw [if_neg (show ¬ v_geomOf c7Scenario * 1.01 < v_effOf c7Scenario by
            rw [v_geom_c7, v_eff_c7]
            push_neg
            nlinarith [Real.pi_gt_d6]),
        if_neg (show ¬ v_effOf c7Scenario ≤ 0 by rw [v_eff_c7]; norm_num)]
      simp
    rw [hflags]
    intro f hf
    fin_cases hf <;> rfl

/-- Claim C7 (amended: the advisory fires when the specified volumes exceed
101% of the geometric capacity — the source's tolerance; the evaluation is a
total function, so no input is ever rejected): above the tolerance, the
returned validity-flag list contains the capacity-exceeded advisory. -/
theorem volume_flag_when_exceeding_tolerance (s : Scenario)
    (h : v_geomOf s * 1.01 < v_effOf s) :
    Flag.volumeExceeds (v_effOf s) (v_geomOf s) ∈
      (analyzeScenario s).validityFlags := by
  show _ ∈ validityFlagsOf s
  unfold validityFlagsOf
  rw [if_pos h]
  simp

/-- The default scenario with 1000 kL of operating storage, far above the
tank's 125·π kL geometric capacity. -/
def c7wScenario : Scenario :=
  { createDefaultScenario with
      tank :=
        { shape := .cylindrical
          diameter_m := 10
          water_depth_m := 5
          operating_storage_kL := 1000
          reserve_unusable_kL := 0 } }

theorem volume_flag_when_exceeding_tolerance_witness :
    v_geomOf c7wScenario * 1.01 < v_effOf c7wScenario ∧
      Flag.volumeExceeds (v_effOf c7wScenario) (v_geomOf c7wScenario) ∈
        (analyzeScenario c7wScenario).validityFlags := by
  have hg : v_geomOf c7wScenario = 125 * Real.pi := by
    unfold v_geomOf computeTankVolumeCyl c7wScenario
    simp only
    ring
  have he : v_effOf c7wScenario = 1000 := by
    unfold v_effOf v_operOf v_reserveOf c7wScenario
    simp only
    rw [max_eq_right (by norm_num : (0 : ℝ) ≤ 1000), max_self]
    norm_num
  have h : v_geomOf c7wScenario * 1.01 < v_effOf c7wScenario := by
    rw [hg, he]
    nlinarith [Real.pi_lt_d2]
  exact ⟨h, volume_flag_when_exceeding_tolerance c7wScenario h⟩

/-- Claim C9: whenever the inlet velocity is below the target velocity, the
recommendation list contains the nozzle-resize recommendation whose
suggested diameter is sqrt(4·q_per_inlet / (π·target_velocity)) with
q_per_inlet the total flow divided by the inlet count taken as at least 1. -/
theorem nozzle_recommendation (s : Scenario) (h : VjetOf s < v_targetOf s) :
    (⟨"rec-nozzle", .design, .high,
        .recNozzle (v_targetOf s)
          (Real.sqrt (4 * (s.operation.inflow_Lps / 1000 / max 1 s.inlet.count)
            / (Real.pi * v_targetOf s)))⟩ : Recommendation) ∈
      (analyzeScenario s).recommendations := by
  show _ ∈ recsOf s
  simp [recsOf, recNozzleDiamOf, h]

/-- The default scenario with the nozzle widened to 300 mm: the inlet
velocity ≈ 0.28 m/s drops below the 0.8 m/s target. -/
def c9Scenario : Scenario :=
  { createDefaultScenario with
      inlet :=
        { count := 1
          elevation_from_floor_m := 0.5
          nozzle_diameter_mm := 300
          orientation := .radial
          inclination_deg := 0 } }

theorem Vjet_c9_lt : VjetOf c9Scenario < v_targetOf c9Scenario := by
  unfold VjetOf computeInletVelocity nozzleAreaOf computeNozzleArea v_targetOf
    c9Scenario createDefaultScenario
  simp only
  have hA : (0 : ℝ) < Real.pi * (300 / 1000 / 2 : ℝ) ^ 2 := by positivity
  rw [if_neg (by push_neg; exact ⟨hA, by norm_num⟩), div_lt_iff₀ hA]
  nlinarith [Real.pi_gt_three]

theorem nozzle_recommendation_witness :
    VjetOf c9Scenario < v_targetOf c9Scenario ∧
      (⟨"rec-nozzle", .design, .high,
          .recNozzle (v_targetOf c9Scenario)
            (Real.sqrt (4 * (c9Scenario.operation.inflow_Lps / 1000 /
                max 1 c9Scenario.inlet.count)
              / (Real.pi * v_targetOf c9Scenario)))⟩ : Recommendation) ∈
        (analyzeScenario c9Scenario).recommendations :=
  ⟨Vjet_c9_lt, nozzle_recommendation c9Scenario Vjet_c9_lt⟩

/-- Claim C10: when the stable-stratification predicate fails (worst-case
ΔT below 2 °C, or Ri not above the warn threshold), the jet-penetration
metric is `bottom` regardless of the inlet elevation, and the penetration
check leaves the severity unchanged, so the `upper_layer_only` FAIL
escalation can never fire. -/
theorem reach_bottom_when_no_stratification (s : Scenario)
    (h : dt_vs_tankOf s < 2.0 ∨
      ¬ ((s.options.ri_threshold_warn : ℝ) : EReal) < RiOf s) :
    (analyzeScenario s).metrics.jetPenetrationReach = .bottom ∧
      verticalAfterPenetrationOf s = verticalAfterMomentumOf s := by
  have hns : ¬ stableStratLikelyOf s := by
    intro hc
    rcases h with h | h
    · exact absurd hc.1 (not_le.mpr h)
    · exact h hc.2
  have hreach : reachOf s = .bottom := by
    unfold reachOf
    rw [if_neg hns]
  refine ⟨hreach, ?_⟩
  unfold verticalAfterPenetrationOf penetrationStage
  rw [hreach]
  simp

/-- The default scenario with inflow and tank both at 22 °C: ΔT = 0. -/
def c10Scenario : Scenario :=
  { createDefaultScenario with
      water :=
        { temperature_inflow_min_C := 22
          temperature_inflow_max_C := 22
          temperature_tank_initial_C := 22 } }

theorem dt_c10_lt : dt_vs_tankOf c10Scenario < 2.0 := by
  unfold dt_vs_tankOf c10Scenario
  simp only
  rw [show (22 - 22 : ℝ) = 0 by norm_num, abs_zero, max_self]
  norm_num

theorem reach_bottom_when_no_stratification_witness :
    (dt_vs_tankOf c10Scenario < 2.0 ∨
        ¬ ((c10Scenario.options.ri_threshold_warn : ℝ) : EReal) < RiOf c10Scenario) ∧
      (analyzeScenario c10Scenario).metrics.jetPenetrationReach = .bottom ∧
        verticalAfterPenetrationOf c10Scenario = verticalAfterMomentumOf c10Scenario :=
  ⟨Or.inl dt_c10_lt,
    reach_bottom_when_no_stratification c10Scenario (Or.inl dt_c10_lt)⟩

end TankMixing
